import Mathlib

/-!
Verification of the fractalaw micro-app host runtime against its
specification.  The definitions below are a shallow embedding of
crates/fractalaw-host/src/lib.rs and crates/fractalaw-store/src/duck.rs.
Pure control flow is translated directly; the external libraries the host
delegates to (arrow IPC, duckdb, reqwest, serde_json, tokio) appear as
explicit parameters recording the outcome of each library call, so every
branch of the Rust source corresponds to one branch of a Lean definition.
Machine integers (u32 error codes, u64 fuel and row counts) are modelled
as Nat; the values involved (codes 1..3, saturating fuel subtraction)
never exercise wraparound, and saturating_sub on u64 is exactly Nat
subtraction.
-/

namespace Fractalaw

/-- Host-side audit entry (lib.rs, struct AuditRecord).  The chrono
timestamp is modelled as a Nat tick value. -/
structure AuditRecord where
  event_type : String
  resource : String
  detail : String
  timestamp : Nat
deriving Repr, DecidableEq

/-- Result of running a micro-app component (lib.rs, struct RunResult).
The output field is Result of String, String in the source. -/
structure RunResult where
  output : Except String String
  audit_entries : List AuditRecord
  fuel_consumed : Nat
deriving Repr

/-- Guest-visible error of the data-query capability: record with a u32
code and a message, from the generated WIT bindings. -/
structure QueryError where
  code : Nat
  message : String
deriving Repr, DecidableEq

/-- Guest-visible error of the data-mutate capability. -/
structure MutateError where
  code : Nat
  message : String
deriving Repr, DecidableEq

/-- Guest-visible error of the ai-embeddings and ai-inference
capabilities. -/
structure AiError where
  code : Nat
  message : String
deriving Repr, DecidableEq

/-- Inference request shape (WIT GenerateRequest).  The f32 temperature
field is omitted: it is consulted only while composing the HTTP request
body, which this embedding abstracts as an HttpOutcome parameter. -/
structure GenerateRequest where
  system_prompt : Option String
  user_prompt : String
  max_tokens : Nat
deriving Repr, DecidableEq

/-- Inference response shape (WIT GenerateResponse).  The constant f32
confidence field (always 1.0 in the source) is omitted from the model. -/
structure GenerateResponse where
  text : String
  tokens_used : Nat
deriving Repr, DecidableEq

/-- Outcome of one Rust expression that can panic: the byte-index string
slice in generate_impl is the only panic site the claims touch. -/
inductive RustEval (A : Type) where
  | panics : RustEval A
  | returns : A → RustEval A
deriving Repr

-- ── Arrow IPC library boundary ──

/-- Boundary of the arrow-rs IPC stream library used by encode_ipc and
decode_ipc (lib.rs lines 410..444).  streamWrite bundles
StreamWriter::try_new, the write calls and finish into one outcome over
the byte output; streamRead bundles StreamReader::try_new and collecting
the iterator.  Bytes are modelled as List Nat. -/
structure IpcLib (Batch : Type) (Schema : Type) where
  schemaOf : Batch → Schema
  streamWrite : Schema → List Batch → Except String (List Nat)
  streamRead : List Nat → Except String (List Batch)

/-- Shallow embedding of encode_ipc (lib.rs line 410): empty input
returns empty bytes with no library call; otherwise the whole sequence is
written to an IPC stream under the schema of the first batch. -/
def encode_ipc {Batch Schema : Type} (lib : IpcLib Batch Schema)
    (batches : List Batch) : Except String (List Nat) :=
  match batches with
  | [] => .ok []
  | b :: rest => lib.streamWrite (lib.schemaOf b) (b :: rest)

/-- Shallow embedding of decode_ipc (lib.rs line 433): empty bytes yield
the empty batch sequence with no library call; otherwise the stream
reader is consulted. -/
def decode_ipc {Batch Schema : Type} (lib : IpcLib Batch Schema)
    (data : List Nat) : Except String (List Batch) :=
  if data.isEmpty then .ok []
  else lib.streamRead data

-- ── Capability bridge state and host functions ──

/-- Boundary of the DuckStore handle as consumed by the capability
bridge (duck.rs): query_arrow, insert_batch and execute all return
Results; the error side carries the display text of the StoreError.
Mutation happens behind the handle, so results alone are recorded. -/
structure DuckOps (Store : Type) (Batch : Type) where
  query_arrow : Store → String → Except String (List Batch)
  insert_batch : Store → String → Batch → Except String Unit
  execute : Store → String → Except String Unit

/-- Per-execution host state (lib.rs, struct HostState), with the store
and inference handles as runtime options exactly as in the source when
the duckdb and inference features are compiled in.  The wasi context and
resource table are unused by the claims and omitted. -/
structure HostState (Store : Type) (Inf : Type) where
  audit_entries : List AuditRecord
  duck : Option Store
  inference : Option Inf

/-- Shallow embedding of HostState::query_impl (lib.rs line 142),
duckdb-feature branch: no store gives code 1, a store error gives code 2,
an IPC encoding error gives code 3, otherwise the encoded bytes. -/
def query_impl {Store Inf Batch Schema : Type} (lib : IpcLib Batch Schema)
    (ops : DuckOps Store Batch) (st : HostState Store Inf) (sql : String) :
    Except QueryError (List Nat) :=
  match st.duck with
  | none => .error ⟨1, "no DuckDB store attached"⟩
  | some duck =>
    match ops.query_arrow duck sql with
    | .error e => .error ⟨2, e⟩
    | .ok batches =>
      match encode_ipc lib batches with
      | .error e => .error ⟨3, e⟩
      | .ok bytes => .ok bytes

/-- Loop body of HostState::insert_impl (lib.rs lines 213..222): each
decoded batch is inserted in order; the first store failure stops the
loop with code 3; on success the accumulated row count grows by the rows
of the batch just inserted. -/
def insert_loop {Store Batch : Type} (numRows : Batch → Nat)
    (ops : DuckOps Store Batch) (duck : Store) (table : String) :
    List Batch → Nat → Except MutateError Nat
  | [], total => .ok total
  | b :: rest, total =>
    match ops.insert_batch duck table b with
    | .error e => .error ⟨3, e⟩
    | .ok _ => insert_loop numRows ops duck table rest (total + numRows b)

/-- Shallow embedding of HostState::insert_impl (lib.rs line 195),
duckdb-feature branch: no store gives code 1, an IPC decoding failure
gives code 2, a store rejection of a decoded batch gives code 3,
otherwise the total row count across the decoded batches. -/
def insert_impl {Store Inf Batch Schema : Type} (lib : IpcLib Batch Schema)
    (numRows : Batch → Nat) (ops : DuckOps Store Batch)
    (st : HostState Store Inf) (table : String) (data : List Nat) :
    Except MutateError Nat :=
  match st.duck with
  | none => .error ⟨1, "no DuckDB store attached"⟩
  | some duck =>
    match decode_ipc lib data with
    | .error e => .error ⟨2, "failed to decode Arrow IPC: " ++ e⟩
    | .ok batches => insert_loop numRows ops duck table batches 0

/-- Shallow embedding of HostState::execute_impl (lib.rs line 236),
duckdb-feature branch: no store gives code 1, a store error gives code 2,
and a successful statement always returns the literal 0 because
DuckStore::execute (duck.rs line 382) discards any affected-row count. -/
def execute_impl {Store Inf Batch : Type} (ops : DuckOps Store Batch)
    (st : HostState Store Inf) (sql : String) : Except MutateError Nat :=
  match st.duck with
  | none => .error ⟨1, "no DuckDB store attached"⟩
  | some duck =>
    match ops.execute duck sql with
    | .error e => .error ⟨2, e⟩
    | .ok _ => .ok 0

-- ── Inference gateway (generate_impl) ──

/-- Number of bytes of the UTF-8 encoding of one character, by the
codepoint ranges of the UTF-8 specification; this is what both the Rust
String byte length and the Rust char boundary notion are built on. -/
def utf8Size (c : Char) : Nat :=
  if c.toNat < 0x80 then 1
  else if c.toNat < 0x800 then 2
  else if c.toNat < 0x10000 then 3
  else 4

/-- Byte length of the UTF-8 encoding of a character sequence, matching
Rust str::len. -/
def utf8ByteLen : List Char → Nat
  | [] => 0
  | c :: cs => utf8Size c + utf8ByteLen cs

/-- Model of the Rust byte slice expression of the form s[..i]: returns
the characters occupying the first i bytes when i is a char boundary of
s, and signals the Rust panic (none) when i falls strictly inside the
encoding of a character or past the end of s. -/
def byteSliceTo : List Char → Nat → Option (List Char)
  | _, 0 => some []
  | [], _ + 1 => none
  | c :: cs, i + 1 =>
    if utf8Size c ≤ i + 1 then
      (byteSliceTo cs (i + 1 - utf8Size c)).map (fun p => c :: p)
    else none

/-- Outcome of the reqwest POST in generate_impl: the send itself can
fail, reading the body text can fail, or a response arrives carrying a
status (its display text and its is_success flag) and a body. -/
inductive HttpOutcome where
  | sendErr : String → HttpOutcome
  | bodyErr : String → HttpOutcome
  | response : String → Bool → String → HttpOutcome
deriving Repr

/-- Shape of the serde_json parse result as generate_impl consumes it:
the value at content[0].text when it is a JSON string, and the value at
usage.output_tokens when it is a u64. -/
structure JsonShape where
  content0text : Option String
  usageOutputTokens : Option Nat
deriving Repr

/-- Shallow embedding of HostState::generate_impl (lib.rs line 302),
inference-feature branch.  The reqwest transport is a parameter http and
the serde_json parser is a parameter parse applied to the body text.  No
config gives code 1; send or body-read failure gives code 2; a
non-success status gives code 2 with a message holding the status text
and the whole body; a JSON parse failure gives code 3; a parse result
without content[0].text gives code 3 with a message holding the body
sliced at byte min(len, 200), which panics when that index is not a char
boundary.  tokens_used falls back to 0 via unwrap_or. -/
def generate_impl {Store Inf : Type} (parse : String → Except String JsonShape)
    (http : HttpOutcome) (st : HostState Store Inf) (_req : GenerateRequest) :
    RustEval (Except AiError GenerateResponse) :=
  match st.inference with
  | none =>
    .returns (.error ⟨1, "no inference backend configured (set ANTHROPIC_API_KEY)"⟩)
  | some _config =>
    match http with
    | .sendErr e => .returns (.error ⟨2, "HTTP request failed: " ++ e⟩)
    | .bodyErr e => .returns (.error ⟨2, "failed to read response body: " ++ e⟩)
    | .response statusText isSuccess resp_text =>
      if isSuccess = false then
        .returns (.error ⟨2, "Claude API error (" ++ statusText ++ "): " ++ resp_text⟩)
      else
        match parse resp_text with
        | .error e => .returns (.error ⟨3, "failed to parse response JSON: " ++ e⟩)
        | .ok parsed =>
          match parsed.content0text with
          | some text => .returns (.ok ⟨text, parsed.usageOutputTokens.getD 0⟩)
          | none =>
            match byteSliceTo resp_text.data
                (min (utf8ByteLen resp_text.data) 200) with
            | none => .panics
            | some p =>
              .returns (.error ⟨3,
                "unexpected response structure (no content[0].text): "
                  ++ String.mk p⟩)

-- ── Sandbox engine: run_component ──

/-- Observable effects of one run_component call (lib.rs line 496): the
returned value, whether the epoch ticker task was spawned, and whether
epoch_handle.abort() was invoked before returning.  In tokio, dropping a
JoinHandle detaches the task instead of stopping it, so a spawned ticker
keeps running unless abort was called. -/
structure RunEffects where
  result : Except String RunResult
  tickerSpawned : Bool
  tickerAborted : Bool

/-- Shallow embedding of run_component (lib.rs lines 496..543).  pre
bundles the fallible steps before the ticker spawn (create_engine,
load_component, create_linker, set_fuel); inst is the outcome of
MicroApp::instantiate_async; callRun is the outcome of call_run, whose
error side covers traps (fuel exhaustion, epoch deadline, other) as well
as other host failures; remaining is store.get_fuel() at the end; audit
is the audit buffer drained from the state.  The source aborts the epoch
ticker only after both instantiate_async and call_run succeed: the
question-mark operator on those two calls returns before the abort
line. -/
def run_component (pre : Except String Unit) (inst : Except String Unit)
    (callRun : Except String (Except String String))
    (fuel : Nat) (remaining : Nat) (audit : List AuditRecord) : RunEffects :=
  match pre with
  | .error e => ⟨.error e, false, false⟩
  | .ok _ =>
    match inst with
    | .error e => ⟨.error e, true, false⟩
    | .ok _ =>
      match callRun with
      | .error e => ⟨.error e, true, false⟩
      | .ok output =>
        ⟨.ok ⟨output, audit, fuel - remaining⟩, true, true⟩

-- ── Table store: DuckStore::insert_batch ──

/-- StoreError constructors reachable from DuckStore::insert_batch
(error.rs): Io from the tempfile step, Other from the parquet steps and
from identifier validation, DuckDb from execute_batch. -/
inductive StoreError where
  | io : String → StoreError
  | other : String → StoreError
  | duckDb : String → StoreError
deriving Repr, DecidableEq

/-- Rust char::is_ascii_alphanumeric: the character sets 0..9, a..z and
A..Z, by codepoint. -/
def isAsciiAlphanumeric (c : Char) : Bool :=
  (48 ≤ c.toNat && c.toNat ≤ 57)
    || (97 ≤ c.toNat && c.toNat ≤ 122)
    || (65 ≤ c.toNat && c.toNat ≤ 90)

/-- Outcomes of the filesystem and parquet library calls inside
DuckStore::insert_batch, in call order: tempfile creation (yielding the
temp path), file handle clone, ArrowWriter::try_new, write, close. -/
structure ParquetEnv where
  tempfile : Except String String
  tryClone : Except String Unit
  writerNew : Except String Unit
  writerWrite : Except String Unit
  writerClose : Except String Unit

/-- Result of one DuckStore::insert_batch call together with the final
connection state and the list of SQL statements that were composed and
submitted to execute_batch. -/
structure InsertBatchRun (Conn : Type) where
  result : Except StoreError Unit
  conn : Conn
  composedSql : List String

/-- Shallow embedding of DuckStore::insert_batch (duck.rs line 191).
The table name is validated first: any character outside ASCII
alphanumeric or underscore returns the invalid-table-name error at once,
before the temp file, the parquet writer or any SQL text exists.  Only
after the parquet steps succeed is the single INSERT statement composed
and handed to execute_batch (modelled by executeBatch over the
connection state; the source single-quotes the temp path inside
read_parquet, elided here). -/
def DuckStore.insert_batch {Conn Batch : Type}
    (executeBatch : Conn → String → Except String Conn) (env : ParquetEnv)
    (conn : Conn) (table : String) (_batch : Batch) : InsertBatchRun Conn :=
  if (table.data.all fun c => isAsciiAlphanumeric c || c == '_') = false then
    ⟨.error (.other ("invalid table name: " ++ table)), conn, []⟩
  else
    match env.tempfile with
    | .error e => ⟨.error (.io e), conn, []⟩
    | .ok path =>
      match env.tryClone with
      | .error e => ⟨.error (.io e), conn, []⟩
      | .ok _ =>
        match env.writerNew with
        | .error e => ⟨.error (.other ("parquet writer: " ++ e)), conn, []⟩
        | .ok _ =>
          match env.writerWrite with
          | .error e => ⟨.error (.other ("parquet write: " ++ e)), conn, []⟩
          | .ok _ =>
            match env.writerClose with
            | .error e => ⟨.error (.other ("parquet close: " ++ e)), conn, []⟩
            | .ok _ =>
              let sql :=
                "INSERT INTO " ++ table ++ " SELECT * FROM read_parquet("
                  ++ path ++ ")"
              match executeBatch conn sql with
              | .error e => ⟨.error (.duckDb e), conn, [sql]⟩
              | .ok conn2 => ⟨.ok (), conn2, [sql]⟩

-- ── Concrete instantiations used to evaluate the embedding ──

/-- Concrete IPC library instance on Nat batches with a trivial schema:
a written stream is the batch list behind a leading marker byte, a read
strips the marker and anything else is a malformed stream.  It satisfies
the stream-format round-trip contract and makes the host functions
executable. -/
def toyLib : IpcLib Nat Unit where
  schemaOf := fun _ => ()
  streamWrite := fun _ bs => .ok (0 :: bs)
  streamRead := fun bytes =>
    match bytes with
    | 0 :: rest => .ok rest
    | _ => .error "bad stream"

/-- Row count of a toy batch: the batch value itself. -/
def toyNumRows : Nat → Nat := fun b => b

/-- Concrete store-handle instance: queries return no batches, inserting
the batch 99 is rejected by the store, and every statement executes. -/
def toyOps : DuckOps Unit Nat where
  query_arrow := fun _ _ => .ok []
  insert_batch := fun _ _ b => if b == 99 then .error "constraint violation" else .ok ()
  execute := fun _ _ => .ok ()

/-- Concrete serde_json outcome for a body that is well-formed JSON with
no content[0].text field and no usage.output_tokens field: the parse
succeeds and both lookups come back empty.  A top-level JSON string is
exactly such a body. -/
def toyParse : String → Except String JsonShape := fun _ => .ok ⟨none, none⟩

/-- Checker for the tail of a JSON string literal: a run of characters
free of quote and backslash, closed by a final quote. -/
def jsonStringTail : List Char → Bool
  | [] => false
  | [c] => c == '"'
  | c :: cs => (c != '"') && (c != '\\') && jsonStringTail cs

/-- Decidable sufficient condition for a character sequence to be a
well-formed top-level JSON document: an opening quote followed by an
escape-free string body and a closing quote. -/
def isJsonStringLit : List Char → Bool
  | '"' :: rest => jsonStringTail rest
  | _ => false

/-- Response body whose 200th byte falls strictly inside a two-byte
UTF-8 character: a quote, 198 ASCII letters (bytes 1..198), a two-byte
character occupying bytes 199..200, and the closing quote at byte 201,
202 bytes in total. -/
def c10Body : List Char := '"' :: (List.replicate 198 'a' ++ ['é', '"'])

-- ── Theorems ──

/-- C3: for every sequence of record batches sharing one schema,
including the empty sequence and sequences containing zero-row batches,
decoding the encoding succeeds and yields the same sequence; in
particular encode_ipc of the empty sequence returns empty bytes and
decode_ipc of empty bytes returns the empty sequence.  The hypotheses
state the published contract of the IPC stream library that encode_ipc
and decode_ipc delegate to: writing a batch sequence under its shared
schema yields a nonempty stream (it always holds a schema message) that
reads back to the same sequence. -/
theorem c3_ipc_roundtrip {Batch Schema : Type} (lib : IpcLib Batch Schema)
    (s : Schema) (B : List Batch)
    (hshared : ∀ b ∈ B, lib.schemaOf b = s)
    (hlib : ∀ bs : List Batch, bs ≠ [] → (∀ b ∈ bs, lib.schemaOf b = s) →
      ∃ w, lib.streamWrite s bs = .ok w ∧ w ≠ [] ∧ lib.streamRead w = .ok bs) :
    encode_ipc lib ([] : List Batch) = .ok [] ∧
    decode_ipc lib [] = .ok ([] : List Batch) ∧
    ∃ bytes, encode_ipc lib B = .ok bytes ∧ decode_ipc lib bytes = .ok B := by
  refine ⟨rfl, rfl, ?_⟩
  match B, hshared with
  | [], _ => exact ⟨[], rfl, rfl⟩
  | b :: rest, hshared =>
    have hb : lib.schemaOf b = s := hshared b (List.mem_cons_self b rest)
    obtain ⟨w, hw, hne, hr⟩ := hlib (b :: rest) (List.cons_ne_nil b rest) hshared
    refine ⟨w, ?_, ?_⟩
    · show lib.streamWrite (lib.schemaOf b) (b :: rest) = .ok w
      rw [hb]
      exact hw
    · cases w with
      | nil => exact absurd rfl hne
      | cons x xs => simpa [decode_ipc] using hr

/-- Witness for c3_ipc_roundtrip: the concrete IPC library instance
toyLib satisfies the stream contract and round-trips the two-batch
sequence 7, 8 as well as the empty sequence. -/
theorem c3_ipc_roundtrip_witness :
    encode_ipc toyLib ([] : List Nat) = .ok [] ∧
    decode_ipc toyLib [] = .ok ([] : List Nat) ∧
    ∃ bytes, encode_ipc toyLib [7, 8] = .ok bytes ∧
      decode_ipc toyLib bytes = .ok [7, 8] :=
  c3_ipc_roundtrip toyLib () [7, 8] (fun _ _ => rfl)
    (fun bs _ _ => ⟨0 :: bs, rfl, List.cons_ne_nil 0 bs, rfl⟩)

/-- C4: for every table name containing at least one character outside
A..Z, a..z, 0..9 and underscore, and every batch, insert_batch returns
the invalid-identifier error immediately: no SQL statement is composed
or executed and the connection state is unchanged. -/
theorem c4_insert_batch_validates_identifier {Conn Batch : Type}
    (executeBatch : Conn → String → Except String Conn) (env : ParquetEnv)
    (conn : Conn) (table : String) (batch : Batch)
    (h : ∃ c ∈ table.data, isAsciiAlphanumeric c = false ∧ c ≠ '_') :
    DuckStore.insert_batch executeBatch env conn table batch =
      ⟨.error (.other ("invalid table name: " ++ table)), conn, []⟩ := by
  obtain ⟨c, hc, hval, hne⟩ := h
  have hall : (table.data.all fun c => isAsciiAlphanumeric c || c == '_') = false := by
    cases hcase : (table.data.all fun c => isAsciiAlphanumeric c || c == '_') with
    | false => rfl
    | true =>
      exfalso
      have := List.all_eq_true.mp hcase c hc
      simp only [hval, Bool.false_or, beq_iff_eq] at this
      exact hne this
  unfold DuckStore.insert_batch
  rw [hall]
  rfl

/-- Witness for c4_insert_batch_validates_identifier at the table name
used in the source test insert_batch_rejects_bad_table_name. -/
theorem c4_witness :
    DuckStore.insert_batch (fun (c : Unit) _ => .ok c)
      ⟨.ok "tmp.parquet", .ok (), .ok (), .ok (), .ok ()⟩ () "bad;table" (0 : Nat) =
      ⟨.error (.other ("invalid table name: " ++ "bad;table")), (), []⟩ :=
  c4_insert_batch_validates_identifier _ _ _ _ _ ⟨';', by decide, by decide, by decide⟩

/-- C5: with no store handle attached every query, execute and insert
call returns the code-1 error, and with no inference config attached
every generate call returns the code-1 error, in all cases regardless of
the arguments, the store behaviour, the transport outcome and the parse
outcome. -/
theorem c5_missing_capability_code1 {Store Inf Batch Schema : Type}
    (lib : IpcLib Batch Schema) (numRows : Batch → Nat)
    (ops : DuckOps Store Batch)
    (st : HostState Store Inf) (hduck : st.duck = none)
    (st2 : HostState Store Inf) (hinf : st2.inference = none) :
    (∀ sql, query_impl lib ops st sql =
      .error ⟨1, "no DuckDB store attached"⟩) ∧
    (∀ table data, insert_impl lib numRows ops st table data =
      .error ⟨1, "no DuckDB store attached"⟩) ∧
    (∀ sql, execute_impl ops st sql =
      .error ⟨1, "no DuckDB store attached"⟩) ∧
    (∀ parse http req, generate_impl parse http st2 req =
      .returns (.error
        ⟨1, "no inference backend configured (set ANTHROPIC_API_KEY)"⟩)) := by
  refine ⟨?_, ?_, ?_, ?_⟩ <;> intros <;>
    simp [query_impl, insert_impl, execute_impl, generate_impl, hduck, hinf]

/-- Witness for c5_missing_capability_code1 on the empty host state with
concrete arguments for each capability. -/
theorem c5_witness :
    query_impl toyLib toyOps (⟨[], none, none⟩ : HostState Unit Unit) "SELECT 1" =
      .error ⟨1, "no DuckDB store attached"⟩ ∧
    insert_impl toyLib toyNumRows toyOps (⟨[], none, none⟩ : HostState Unit Unit)
      "t" [0, 2] = .error ⟨1, "no DuckDB store attached"⟩ ∧
    execute_impl toyOps (⟨[], none, none⟩ : HostState Unit Unit) "DELETE FROM t" =
      .error ⟨1, "no DuckDB store attached"⟩ ∧
    generate_impl toyParse (.sendErr "refused")
      (⟨[], none, none⟩ : HostState Unit Unit) ⟨none, "hi", 8⟩ =
      .returns (.error
        ⟨1, "no inference backend configured (set ANTHROPIC_API_KEY)"⟩) := by
  obtain ⟨h1, h2, h3, h4⟩ :=
    c5_missing_capability_code1 toyLib toyNumRows toyOps
      ⟨[], none, none⟩ rfl ⟨[], none, none⟩ rfl
  exact ⟨h1 _, h2 _ _, h3 _, h4 _ _ _⟩

/-- C6 counterexample: with a store attached, an insert whose bytes fail
to decode returns code 2, not code 3 as the claim states, and an insert
whose decoded batch the store rejects returns code 3, not code 2. -/
theorem c6_counterexample :
    insert_impl toyLib toyNumRows toyOps
      (⟨[], some (), none⟩ : HostState Unit Unit) "t" [5] =
      .error ⟨2, "failed to decode Arrow IPC: bad stream"⟩ ∧
    insert_impl toyLib toyNumRows toyOps
      (⟨[], some (), none⟩ : HostState Unit Unit) "t" [0, 99] =
      .error ⟨3, "constraint violation"⟩ :=
  ⟨rfl, rfl⟩

/-- C6 amended: with a store attached, insert returns code 2 with the
decode-failure message when the bytes fail to decode, runs the decoded
batches through the insert loop otherwise, and every error produced by
that loop carries code 3 with the message of the store rejection. -/
theorem c6_insert_error_codes {Store Inf Batch Schema : Type}
    (lib : IpcLib Batch Schema) (numRows : Batch → Nat)
    (ops : DuckOps Store Batch)
    (st : HostState Store Inf) (duck : Store) (hduck : st.duck = some duck) :
    (∀ table data e, decode_ipc lib data = .error e →
      insert_impl lib numRows ops st table data =
        .error ⟨2, "failed to decode Arrow IPC: " ++ e⟩) ∧
    (∀ table data batches, decode_ipc lib data = .ok batches →
      insert_impl lib numRows ops st table data =
        insert_loop numRows ops duck table batches 0) ∧
    (∀ duck2 table batches acc err,
      insert_loop numRows ops duck2 table batches acc = .error err →
      err.code = 3 ∧
        ∃ b e, ops.insert_batch duck2 table b = .error e ∧ err.message = e) := by
  refine ⟨?_, ?_, ?_⟩
  · intro table data e hd
    simp [insert_impl, hduck, hd]
  · intro table data batches hd
    simp [insert_impl, hduck, hd]
  · intro duck2 table batches
    induction batches with
    | nil =>
      intro acc err h
      simp [insert_loop] at h
    | cons b rest ih =>
      intro acc err h
      simp only [insert_loop] at h
      cases hb : ops.insert_batch duck2 table b with
      | error e =>
        rw [hb] at h
        simp only [Except.error.injEq] at h
        subst h
        exact ⟨rfl, b, e, hb, rfl⟩
      | ok u =>
        rw [hb] at h
        exact ih _ _ h

/-- Witness for c6_insert_error_codes: the decode-failure branch at a
concrete malformed byte stream yields the code-2 error. -/
theorem c6_witness :
    insert_impl toyLib toyNumRows toyOps
      (⟨[], some (), none⟩ : HostState Unit Unit) "t" [7] =
      .error ⟨2, "failed to decode Arrow IPC: " ++ "bad stream"⟩ :=
  (c6_insert_error_codes toyLib toyNumRows toyOps
      ⟨[], some (), none⟩ () rfl).1 "t" [7] "bad stream" rfl

/-- C7 counterexample: the message of the code-2 error returned on a
non-success HTTP status is not bounded independently of the response
body length, because the source embeds the whole body in the message;
no bound covers all bodies. -/
theorem c7_counterexample :
    ¬ ∃ B : Nat, ∀ (body : String) (err : AiError),
      generate_impl toyParse (.response "500 Internal Server Error" false body)
        (⟨[], none, some ()⟩ : HostState Unit Unit) ⟨none, "hi", 8⟩ =
        .returns (.error err) →
      err.message.length ≤ B := by
  rintro ⟨B, h⟩
  have hb := h ⟨List.replicate (B + 1) 'a'⟩ _ rfl
  simp only [String.length_append, String.length_mk, List.length_replicate] at hb
  omega

/-- C7 amended: on an HTTP response with a non-success status, generate
fails with the code-2 error whose message carries the status code text
and the entire response body (the message is not truncated, so its
length grows with the body). -/
theorem c7_remote_error_status_and_full_body {Store Inf : Type}
    (parse : String → Except String JsonShape) (st : HostState Store Inf)
    (cfg : Inf) (hinf : st.inference = some cfg)
    (statusText body : String) (req : GenerateRequest) :
    generate_impl parse (.response statusText false body) st req =
      .returns (.error ⟨2, "Claude API error (" ++ statusText ++ "): " ++ body⟩) := by
  simp [generate_impl, hinf]

/-- Witness for c7_remote_error_status_and_full_body at a concrete
config, status and body. -/
theorem c7_witness :
    generate_impl toyParse
      (.response "429 Too Many Requests" false "rate limited")
      (⟨[], none, some ()⟩ : HostState Unit Unit) ⟨none, "hi", 8⟩ =
      .returns (.error
        ⟨2, "Claude API error (" ++ "429 Too Many Requests" ++ "): "
          ++ "rate limited"⟩) :=
  c7_remote_error_status_and_full_body toyParse ⟨[], none, some ()⟩ () rfl
    "429 Too Many Requests" "rate limited" ⟨none, "hi", 8⟩

/-- C8: every run_component call that produces a Run Result reports
fuel_consumed equal to the initial budget minus the remaining fuel with
Nat (saturating) subtraction, hence fuel_consumed is at most the budget,
and fuel_consumed is positive whenever some fuel was spent, which holds
in particular whenever the guest executed at least one instruction. -/
theorem c8_fuel_accounting (pre inst : Except String Unit)
    (callRun : Except String (Except String String)) (fuel remaining : Nat)
    (audit : List AuditRecord) (rr : RunResult)
    (h : (run_component pre inst callRun fuel remaining audit).result = .ok rr) :
    rr.fuel_consumed = fuel - remaining ∧ rr.fuel_consumed ≤ fuel ∧
      (remaining < fuel → 0 < rr.fuel_consumed) := by
  cases pre with
  | error e => simp [run_component] at h
  | ok u =>
    cases inst with
    | error e => simp [run_component] at h
    | ok u2 =>
      cases callRun with
      | error e => simp [run_component] at h
      | ok output =>
        simp only [run_component, Except.ok.injEq] at h
        subst h
        exact ⟨rfl, Nat.sub_le fuel remaining, fun hlt => Nat.sub_pos_of_lt hlt⟩

/-- Witness for c8_fuel_accounting at a successful run with budget 10
and remaining fuel 4. -/
theorem c8_witness :
    (⟨.ok "done", [], 6⟩ : RunResult).fuel_consumed = 10 - 4 ∧
    (⟨.ok "done", [], 6⟩ : RunResult).fuel_consumed ≤ 10 ∧
    (4 < 10 → 0 < (⟨.ok "done", [], 6⟩ : RunResult).fuel_consumed) :=
  c8_fuel_accounting (.ok ()) (.ok ()) (.ok (.ok "done")) 10 4 []
    ⟨.ok "done", [], 6⟩ rfl

/-- C1: at a run_component execution whose call_run ends in a trap, the
epoch ticker task has been spawned but epoch_handle.abort() is never
reached, because the question-mark operator on call_run returns first;
dropping the tokio JoinHandle detaches rather than stops the task, so
the ticker is still running when the error is returned to the caller,
against the claim that it is aborted on every path. -/
theorem c1_ticker_leaked_on_trap :
    (run_component (.ok ()) (.ok ())
      (.error "all fuel consumed by WebAssembly") 1000 0 []).tickerSpawned
      = true ∧
    (run_component (.ok ()) (.ok ())
      (.error "all fuel consumed by WebAssembly") 1000 0 []).tickerAborted
      = false :=
  ⟨rfl, rfl⟩

/-- C2 counterexample: at a run_component execution whose call_run ends
in a trap, the returned value is the propagated host-level error, not a
populated Run Result carrying an error-text outcome, audit records and a
fuel count. -/
theorem c2_counterexample :
    (run_component (.ok ()) (.ok ())
      (.error "all fuel consumed by WebAssembly") 1000 0
      [⟨"app-started", "demo", "bootstrap", 0⟩]).result =
      .error "all fuel consumed by WebAssembly" :=
  rfl

/-- C2 amended: when the guest traps during run, the trap propagates out
of run_component as a host-level error carrying the trap text; no Run
Result is produced, and the audit records collected before the trap and
the fuel count are dropped with the store. -/
theorem c2_trap_propagates_as_host_error (e : String) (fuel remaining : Nat)
    (audit : List AuditRecord) :
    (run_component (.ok ()) (.ok ()) (.error e) fuel remaining audit).result
      = .error e :=
  rfl

/-- C9: with a store handle attached and a statement the store accepts,
execute returns exactly 0, never the affected row count, because
DuckStore::execute returns no count and execute_impl answers with the
literal 0. -/
theorem c9_execute_returns_zero {Store Inf Batch : Type}
    (ops : DuckOps Store Batch) (st : HostState Store Inf) (duck : Store)
    (hduck : st.duck = some duck) (sql : String)
    (hok : ops.execute duck sql = .ok ()) :
    execute_impl ops st sql = .ok 0 := by
  simp [execute_impl, hduck, hok]

/-- Witness for c9_execute_returns_zero at a concrete store and a
row-affecting statement. -/
theorem c9_witness :
    execute_impl toyOps (⟨[], some (), none⟩ : HostState Unit Unit)
      "UPDATE t SET x = 1" = .ok 0 :=
  c9_execute_returns_zero toyOps ⟨[], some (), none⟩ () rfl
    "UPDATE t SET x = 1" rfl

set_option maxRecDepth 8000 in
/-- C10: the code-3 branch for a response lacking content[0].text is not
total: c10Body is a well-formed JSON document (a top-level string, which
serde_json parses successfully and which has no content[0].text), its
byte length exceeds 200, and its 200th byte falls inside a two-byte
UTF-8 character, so the slice at byte min(len, 200) panics instead of
producing the error message. -/
theorem c10_slice_panics_mid_char :
    isJsonStringLit c10Body = true ∧
    utf8ByteLen c10Body = 202 ∧
    generate_impl toyParse (.response "200 OK" true ⟨c10Body⟩)
      (⟨[], none, some ()⟩ : HostState Unit Unit) ⟨none, "hi", 8⟩ = .panics :=
  ⟨rfl, rfl, rfl⟩

end Fractalaw
